import Mathlib

/-!
Verification development for the dashboard/visualization listing plugin layer.

The TypeScript sources are shallowly embedded as Lean functions:
* the backend search / listing services, the saved-objects update client and
  the duplicate-title check are external collaborators; they are passed in as
  function parameters, so every theorem quantifies over their behaviour;
* `uiSettings.get` is a parameter `uiSettings : String → Nat`;
* JavaScript truthiness on optional strings (`item.error`), `??`, `||` on
  strings and `Array.prototype`/`Set` operations are modelled explicitly;
* asynchronous code is single-threaded request/response glue here, so each
  handler is embedded as a pure function from its inputs (and the behaviour of
  its collaborators) to the calls it issues and the value it returns.
-/

/-- A saved-object reference (`@kbn/content-management-utils` `Reference`). -/
structure Reference where
  type : String
  id : String
  name : String
  deriving DecidableEq, Repr

/-- The optional second argument of the find handlers:
`{ references?, referencesToExclude? }`. -/
structure FindOptions where
  references : Option (List Reference) := none
  referencesToExclude : Option (List Reference) := none
  deriving Repr

/-- The settings key read by both find adapters. -/
def SAVED_OBJECTS_LIMIT_SETTING : String := "savedObjects:listingLimit"

/-! ## Dashboard listing find adapter (`findDashboardListingItems`) -/

/-- `getReferenceIds` from `find_items`: `refs?.map((r) => r.id)`. -/
def getReferenceIds (refs : Option (List Reference)) : Option (List String) :=
  refs.map (fun l => l.map (fun r => r.id))

/-- The argument object of `findService.search`:
`{search, per_page, tags: {included, excluded}}`. -/
structure DashSearchQuery where
  search : String
  per_page : Nat
  tagsIncluded : List String
  tagsExcluded : List String
  deriving DecidableEq, Repr

/-- Raw backend dashboard record: the `data` part. -/
structure DashboardHitData where
  title : String
  description : String
  tags : Option (List String)
  time_range : Option String
  deriving Repr

/-- Raw backend dashboard record: the `meta` part. -/
structure DashboardHitMeta where
  updated_at : String
  created_at : Option String
  created_by : Option String
  updated_by : Option String
  managed : Option Bool
  deriving Repr

/-- One raw hit returned by `findService.search`. -/
structure DashboardHit where
  id : String
  data : DashboardHitData
  meta : DashboardHitMeta
  deriving Repr

/-- The shape returned by `findService.search`: `{ total, dashboards }`. -/
structure DashSearchResponse where
  total : Nat
  dashboards : List DashboardHit
  deriving Repr

/-- `attributes` of the mapped dashboard view-model. -/
structure DashAttributes where
  title : String
  description : String
  timeRestore : Bool
  deriving Repr

/-- `DashboardSavedObjectUserContent`: the mapped view-model item. -/
structure DashboardUserContent where
  type : String
  id : String
  updatedAt : String
  createdAt : Option String
  createdBy : Option String
  updatedBy : Option String
  references : List Reference
  managed : Option Bool
  attributes : DashAttributes
  deriving Repr

/-- The per-hit mapping inside `findDashboardListingItems`:
`dashboards.map(({id, data, meta}) => ...)`; `tagApi` is the optional
`savedObjectsTaggingService?.getTaggingApi()` reduced to `tagIdToReference`. -/
def mapDashboardHit (tagApi : Option (String → Reference)) (hit : DashboardHit) :
    DashboardUserContent :=
  { type := "dashboard"
    id := hit.id
    updatedAt := hit.meta.updated_at
    createdAt := hit.meta.created_at
    createdBy := hit.meta.created_by
    updatedBy := hit.meta.updated_by
    references :=
      match tagApi, hit.data.tags with
      | some api, some tags => tags.map api
      | _, _ => []
    managed := hit.meta.managed
    attributes :=
      { title := hit.data.title
        description := hit.data.description
        timeRestore := hit.data.time_range.isSome } }

/-- Result of a call of `findDashboardListingItems`, instrumented with the
request object handed to the single `findService.search` call it performs. -/
structure DashFindOutcome where
  request : DashSearchQuery
  total : Nat
  hits : List DashboardUserContent
  deriving Repr

/-- `findDashboardListingItems` from `find_items`: reads the listing limit
from settings, issues one backend search and maps the raw hits. -/
def findDashboardListingItems (uiSettings : String → Nat)
    (search : DashSearchQuery → DashSearchResponse)
    (tagApi : Option (String → Reference))
    (searchTerm : String) (options : Option FindOptions) : DashFindOutcome :=
  let opts := options.getD {}
  let limit := uiSettings SAVED_OBJECTS_LIMIT_SETTING
  let query : DashSearchQuery :=
    { search := searchTerm
      per_page := limit
      tagsIncluded := (getReferenceIds opts.references).getD []
      tagsExcluded := (getReferenceIds opts.referencesToExclude).getD [] }
  let resp := search query
  { request := query
    total := resp.total
    hits := resp.dashboards.map (mapDashboardHit tagApi) }

/-! ## Visualization listing find adapter (`findVisualizationsForDashboard`) -/

/-- The positional arguments of `visualizationsService.findListItems`
`(searchTerm, limit, references, referencesToExclude)` bundled as a record. -/
structure VisFindRequest where
  searchTerm : String
  limit : Nat
  references : Option (List Reference)
  referencesToExclude : Option (List Reference)
  deriving Repr

/-- One raw item returned by `findListItems` (a `VisualizationListItem`,
possibly carrying `readOnly`).  `typeField` is the `type` property, which may
be absent. -/
structure RawVisListItem where
  id : String
  title : String
  description : Option String
  typeField : Option String
  savedObjectType : String
  readOnly : Option Bool
  error : Option String
  managed : Bool
  deriving Repr

/-- `{ total, hits }` as returned by `findListItems`. -/
structure VisFindResponse where
  total : Nat
  hits : List RawVisListItem
  deriving Repr

/-- JavaScript `a || b` on strings, where `a` may be absent: an absent or
empty string falls back to `b`. -/
def jsOrString (a : Option String) (b : String) : String :=
  match a with
  | some s => if s = "" then b else s
  | none => b

/-- `attributes` of the mapped `VisualizeUserContent`. -/
structure VisAttributes where
  id : String
  title : String
  description : Option String
  readOnly : Bool
  error : Option String
  deriving Repr

/-- The mapped `VisualizeUserContent` view-model item (the fields the listing
callbacks use). -/
structure VisUserContent where
  id : String
  title : String
  type : String
  managed : Bool
  error : Option String
  attributes : VisAttributes
  deriving Repr

/-- The per-hit mapping inside `findVisualizationsForDashboard`:
spread of the raw item with `type: vis.type || vis.savedObjectType` and the
rebuilt `attributes` (with `readOnly: vis.readOnly ?? false`). -/
def mapVisHit (vis : RawVisListItem) : VisUserContent :=
  { id := vis.id
    title := vis.title
    type := jsOrString vis.typeField vis.savedObjectType
    managed := vis.managed
    error := vis.error
    attributes :=
      { id := vis.id
        title := vis.title
        description := vis.description
        readOnly := vis.readOnly.getD false
        error := vis.error } }

/-- Result of a call of `findVisualizationsForDashboard`, instrumented with
the request handed to the single `findListItems` call it performs. -/
structure VisFindOutcome where
  request : VisFindRequest
  total : Nat
  hits : List VisUserContent
  deriving Repr

/-- `findVisualizationsForDashboard` from `find_visualizations`: reads the
listing limit from settings, delegates to `findListItems` and maps the hits. -/
def findVisualizationsForDashboard (uiSettings : String → Nat)
    (findListItems : VisFindRequest → VisFindResponse)
    (searchTerm : String) (options : Option FindOptions) : VisFindOutcome :=
  let limit := uiSettings SAVED_OBJECTS_LIMIT_SETTING
  let request : VisFindRequest :=
    { searchTerm := searchTerm
      limit := limit
      references := options.bind (fun o => o.references)
      referencesToExclude := options.bind (fun o => o.referencesToExclude) }
  let resp := findListItems request
  { request := request
    total := resp.total
    hits := resp.hits.map mapVisHit }

/-! ## Row item actions -/

/-- The `edit` entry of the object returned by `rowItemActions`. -/
structure EditActionState where
  enabled : Bool
  reason : Option String
  deriving Repr

/-- The object returned by `rowItemActions` when actions are restricted. -/
structure RowItemActions where
  edit : EditActionState
  deriving Repr

/-- `visualizations.listing.managedVisualizationMessage` default message. -/
def managedVisualizationMessage : String :=
  "Elastic manages this visualization. Changing it is not possible."

/-- `visualizations.listing.readOnlyVisualizationMessage` default message. -/
def readOnlyVisualizationMessage : String :=
  "These details can\x27t be edited because this visualization is no longer supported."

/-- `rowItemActions` from `get_table_list`: edit is disabled for items
without save permission, managed items and read-only visualizations. -/
def visRowItemActions (canSave : Bool) (item : VisUserContent) :
    Option RowItemActions :=
  let managed := item.managed
  let isReadOnlyVisualization := item.attributes.readOnly
  if !canSave || managed || isReadOnlyVisualization then
    some
      { edit :=
          { enabled := false
            reason :=
              if managed then some managedVisualizationMessage
              else if isReadOnlyVisualization then some readOnlyVisualizationMessage
              else none } }
  else
    none

/-- JavaScript truthiness of an optional boolean property. -/
def jsTruthyBool : Option Bool → Bool
  | some b => b
  | none => false

/-- `rowItemActions` from `use_dashboard_listing_table`; `managedMessage` is
`dashboardListingTableStrings.getManagementItemDisabledEditMessage()`, whose
text lives in a strings module outside the embedded sources. -/
def dashRowItemActions (showWriteControls : Bool) (managedMessage : String)
    (item : DashboardUserContent) : Option RowItemActions :=
  let managed := jsTruthyBool item.managed
  if !showWriteControls || managed then
    some
      { edit :=
          { enabled := false
            reason := if managed then some managedMessage else none } }
  else
    none

/-! ## Title click handler -/

/-- The observable effect of the click handler returned by
`getOnClickTitle`: it invokes `editItem` on the captured item. -/
inductive ClickAction where
  | runEditItem (item : VisUserContent)

/-- JavaScript truthiness of an optional string property (absent and the
empty string are falsy). -/
def jsTruthyStr : Option String → Bool
  | some s => s ≠ ""
  | none => false

/-- `getOnClickTitle` from `get_table_list`: no handler for read-only or
errored visualizations; otherwise a closure calling `editItem(item)`. -/
def getOnClickTitle (item : VisUserContent) : Option (Unit → ClickAction) :=
  if item.attributes.readOnly || jsTruthyStr item.error then none
  else some (fun _ => ClickAction.runEditItem item)

/-! ## Content editor save handler -/

/-- The argument object of the content editor `onSave` callback. -/
structure SaveArgs where
  id : String
  title : String
  description : Option String
  tags : List String
  deriving Repr

/-- One call of the external `updateBasicSoAttributes` utility: target id and
type plus the new attributes. -/
structure UpdateBasicAttributesCall where
  id : String
  type : String
  title : String
  description : String
  tags : List String
  deriving DecidableEq, Repr

/-- `onContentEditorSave` from `get_table_list`: looks the item up in the
cached result set of the last search by id and, when found, issues exactly
one partial update; the returned list records the update calls issued. -/
def onContentEditorSave (visualizedUserContent : List VisUserContent)
    (args : SaveArgs) : List UpdateBasicAttributesCall :=
  match visualizedUserContent.find? (fun c => c.id == args.id) with
  | some content =>
    [{ id := content.attributes.id
       type := content.type
       title := args.title
       description := args.description.getD ""
       tags := args.tags }]
  | none => []

/-! ## Duplicate-title validator -/

/-- Argument object of `checkForDuplicateTitle`. -/
structure DuplicateTitleCheckArgs where
  id : String
  title : String
  lastSavedTitle : String
  deriving Repr

/-- `visualizations.listing.duplicateTitleWarning` with `value`
interpolated. -/
def duplicateTitleWarning (value : String) : String :=
  "Saving \"" ++ value ++ "\" creates a duplicate title."

/-- The `type` of the title validator registered in
`contentEditorValidators`: a warning-level validator. -/
def visTitleValidatorType : String := "warning"

/-- The `fn` of the title validator from `get_table_list`:
`checkForDuplicateTitleRejects` abstracts the external
`checkForDuplicateTitle`, `true` meaning the check throws (a duplicate). -/
def visTitleValidatorFn (visualizedUserContent : List VisUserContent)
    (checkForDuplicateTitleRejects : DuplicateTitleCheckArgs → Bool)
    (value : String) (id : String) : Option String :=
  if id ≠ "" then
    match visualizedUserContent.find? (fun c => c.id == id) with
    | some content =>
      if checkForDuplicateTitleRejects
          { id := id, title := value, lastSavedTitle := content.title } then
        some (duplicateTitleWarning value)
      else none
    | none => none
  else none

/-! ## Delete batch (`deleteItems` from `use_dashboard_listing_table`) -/

/-- Observable outcome of one `deleteItems` batch: which ids were attempted,
deleted (`dashboardClient.delete` succeeded), cleared
(`dashboardBackupService.clearState` ran), how many error toasts were raised
and how many delete-time performance events were reported. -/
structure DeleteBatchOutcome where
  attempted : List String
  deleted : List String
  cleared : List String
  errorToasts : Nat
  perfEvents : Nat
  deriving Repr

/-- Modelled from the spec: `asyncMap` (a platform std utility) is not among
the embedded sources; the spec states that delete operations over multiple
items "execute sequentially via an ordered asynchronous mapping, not in
parallel, so a mid-batch failure aborts the remaining deletions".  This is
that ordered traversal: items are attempted in list order, a successful item
is deleted and its backup state cleared, and the first failure stops the
traversal.  Returns `(attempted, deleted, cleared, failed)`. -/
def asyncMapDelete (deleteSucceeds : String → Bool) :
    List String → List String × List String × List String × Bool
  | [] => ([], [], [], false)
  | id :: rest =>
    if deleteSucceeds id then
      let (a, d, c, f) := asyncMapDelete deleteSucceeds rest
      (id :: a, id :: d, id :: c, f)
    else
      ([id], [], [], true)

/-- `deleteItems` from `use_dashboard_listing_table`: runs the ordered
mapping inside a single try block; a failure is caught once at the batch
level and raises one error toast; the performance event is only reported when
the whole batch succeeded. -/
def deleteItems (deleteSucceeds : String → Bool)
    (dashboardsToDelete : List String) : DeleteBatchOutcome :=
  let (attempted, deleted, cleared, failed) :=
    asyncMapDelete deleteSucceeds dashboardsToDelete
  { attempted := attempted
    deleted := deleted
    cleared := cleared
    errorToasts := if failed then 1 else 0
    perfEvents := if failed then 0 else 1 }

/-! ## Plugin setup registration -/

/-- The listing tab descriptor `{title, id, getTableList}`; `getTableList` is
a deferred factory resolving start services lazily and is not part of the
registration decision, so only the data fields are modelled. -/
structure TabConfig where
  title : String
  id : String
  deriving DecidableEq, Repr

/-- `visualizationsTabConfig` from the visualization listing plugin. -/
def visualizationsTabConfig : TabConfig :=
  { title := "Visualizations", id := "visualizations" }

/-- Observable outcome of `VisualizationListingPlugin.setup`: the host
registry contents afterwards, plus any errors raised and log lines emitted. -/
structure SetupOutcome where
  registry : List TabConfig
  errors : List String
  logs : List String
  deriving Repr

/-- `VisualizationListingPlugin.setup`: if the optional dashboard dependency
is present, `dependencies.dashboard.listingViewRegistry.add(...)` registers
the visualizations tab; otherwise nothing happens.  The registry is the
ordered collection of registered descriptors (each `setup` call builds a
fresh descriptor object, so `Set.add` appends). -/
def visualizationListingPluginSetup (dashboard : Option Unit)
    (listingViewRegistry : List TabConfig) : SetupOutcome :=
  match dashboard with
  | some _ =>
    { registry := listingViewRegistry ++ [visualizationsTabConfig]
      errors := []
      logs := [] }
  | none =>
    { registry := listingViewRegistry
      errors := []
      logs := [] }

/-! ## Email option formatting (`getFormattedEmailOptions`) -/

/-- A combo-box option `{ label }`. -/
structure EmailOption where
  label : String
  deriving DecidableEq, Repr

/-- JavaScript `String.prototype.trim`: drops whitespace from both ends.
Implemented by structural recursion on the character list so that it
evaluates inside the kernel. -/
def jsTrim (s : String) : String :=
  ⟨((s.data.dropWhile Char.isWhitespace).reverse.dropWhile
      Char.isWhitespace).reverse⟩

/-- Helper for `jsSplitOnComma`: splits a character list at every comma. -/
def splitCommaAux : List Char → List (List Char)
  | [] => [[]]
  | c :: cs =>
    let rest := splitCommaAux cs
    if c = ',' then [] :: rest
    else
      match rest with
      | [] => [[c]]
      | r :: rs => (c :: r) :: rs

/-- JavaScript `searchValue.split(',')` (note `"".split(',')` is `[""]`). -/
def jsSplitOnComma (s : String) : List String :=
  (splitCommaAux s.data).map (fun l => ⟨l⟩)

/-- JavaScript `Set.prototype.add` on an insertion-ordered set of strings. -/
def jsSetAdd (s : List String) (x : String) : List String :=
  if x ∈ s then s else s ++ [x]

/-- `getFormattedEmailOptions` from the email params fields: blank input
returns the previous options; otherwise previous labels are poured into an
insertion-ordered set, each comma-separated entry is trimmed and, when
non-empty, added, and the set is turned back into options. -/
def getFormattedEmailOptions (searchValue : String)
    (previousOptions : List EmailOption) : List EmailOption :=
  if jsTrim searchValue = "" then previousOptions
  else
    let previousEmails : List String := previousOptions.map (fun o => o.label)
    let allUniqueEmails : List String := previousEmails.foldl jsSetAdd []
    let allUniqueEmails : List String :=
      (jsSplitOnComma searchValue).foldl
        (fun s email =>
          let trimmedEmail := jsTrim email
          if trimmedEmail ≠ "" then jsSetAdd s trimmedEmail else s)
        allUniqueEmails
    allUniqueEmails.map (fun email => { label := email })

/-- First-occurrence de-duplication: keeps the first occurrence of each
string, in order.  Spec-side characterisation of "order-preserving,
duplicates collapsed" used to state the email-option claims. -/
def dedupKeepFirst : List String → List String
  | [] => []
  | x :: xs => x :: dedupKeepFirst (xs.filter (fun a => a ≠ x))
termination_by l => l.length
decreasing_by
  simp only [List.length_cons]
  exact Nat.lt_succ_of_le (List.length_filter_le _ _)

/-! ## Sample items used by witness theorems -/

/-- A managed visualization item. -/
def sampleManagedVisItem : VisUserContent :=
  { id := "v1"
    title := "Managed vis"
    type := "lens"
    managed := true
    error := none
    attributes :=
      { id := "v1", title := "Managed vis", description := none
        readOnly := false, error := none } }

/-- A managed dashboard item. -/
def sampleManagedDashItem : DashboardUserContent :=
  { type := "dashboard"
    id := "d1"
    updatedAt := "2024-01-01T00:00:00Z"
    createdAt := none
    createdBy := none
    updatedBy := none
    references := []
    managed := some true
    attributes := { title := "Managed dash", description := "", timeRestore := false } }

/-- A normal (not managed, not read-only, no error) visualization item. -/
def sampleNormalVisItem : VisUserContent :=
  { id := "v2"
    title := "Normal vis"
    type := "lens"
    managed := false
    error := none
    attributes :=
      { id := "v2", title := "Normal vis", description := none
        readOnly := false, error := none } }

/-- A visualization item that is not read-only but carries an error. -/
def sampleErroredVisItem : VisUserContent :=
  { id := "v3"
    title := "Broken vis"
    type := "unknown"
    managed := false
    error := some "Unknown visualization type"
    attributes :=
      { id := "v3", title := "Broken vis", description := none
        readOnly := false, error := some "Unknown visualization type" } }

/-! ## Claims -/

/-- Claim C1: for any search term and empty (absent) filter options, each
listing find adapter issues a backend request whose per-page limit is exactly
the value read from the `savedObjects:listingLimit` setting and whose search
term is the given term, unmodified (dashboard and visualization variants). -/
theorem find_request_limit_and_term (uiSettings : String → Nat)
    (search : DashSearchQuery → DashSearchResponse)
    (findListItems : VisFindRequest → VisFindResponse)
    (tagApi : Option (String → Reference)) (searchTerm : String) :
    (findDashboardListingItems uiSettings search tagApi searchTerm none).request =
      { search := searchTerm
        per_page := uiSettings "savedObjects:listingLimit"
        tagsIncluded := []
        tagsExcluded := [] } ∧
    (findVisualizationsForDashboard uiSettings findListItems searchTerm none).request =
      { searchTerm := searchTerm
        limit := uiSettings "savedObjects:listingLimit"
        references := none
        referencesToExclude := none } := by
  exact ⟨rfl, rfl⟩

/-- Claim C2: the `total` each find adapter returns equals the total reported
by the backend service for the issued request, for every backend behaviour
(in particular independent of how many hits the backend returns). -/
theorem find_total_matches_backend (uiSettings : String → Nat)
    (search : DashSearchQuery → DashSearchResponse)
    (findListItems : VisFindRequest → VisFindResponse)
    (tagApi : Option (String → Reference))
    (searchTerm : String) (options : Option FindOptions) :
    (findDashboardListingItems uiSettings search tagApi searchTerm options).total =
      (search
        (findDashboardListingItems uiSettings search tagApi searchTerm
          options).request).total ∧
    (findVisualizationsForDashboard uiSettings findListItems searchTerm options).total =
      (findListItems
        (findVisualizationsForDashboard uiSettings findListItems searchTerm
          options).request).total := by
  exact ⟨rfl, rfl⟩

/-- Claim C4: for every managed item, `rowItemActions` returns an object with
`edit.enabled = false`, whatever the caller's save/write capability is
(visualization and dashboard variants). -/
theorem managed_item_edit_disabled (canSave showWriteControls : Bool)
    (managedMessage : String) (item : VisUserContent)
    (ditem : DashboardUserContent)
    (hm : item.managed = true) (hdm : ditem.managed = some true) :
    ((visRowItemActions canSave item).map (fun r => r.edit.enabled)) = some false ∧
    ((dashRowItemActions showWriteControls managedMessage ditem).map
      (fun r => r.edit.enabled)) = some false := by
  constructor
  · cases canSave <;> simp [visRowItemActions, hm]
  · cases showWriteControls <;> simp [dashRowItemActions, jsTruthyBool, hdm]

/-- Witness for C4 at concrete managed items with the capability granted. -/
theorem managed_item_edit_disabled_witness :
    ((visRowItemActions true sampleManagedVisItem).map
      (fun r => r.edit.enabled)) = some false ∧
    ((dashRowItemActions true "msg" sampleManagedDashItem).map
      (fun r => r.edit.enabled)) = some false :=
  managed_item_edit_disabled true true "msg" sampleManagedVisItem
    sampleManagedDashItem rfl rfl

/-- Claim C10: when the search value trims to the empty string,
`getFormattedEmailOptions` returns the previous options unchanged. -/
theorem email_options_blank_identity (previousOptions : List EmailOption)
    (searchValue : String) (h : jsTrim searchValue = "") :
    getFormattedEmailOptions searchValue previousOptions = previousOptions := by
  unfold getFormattedEmailOptions
  simp [h]

/-- Witness for C10 at a whitespace-only search value. -/
theorem email_options_blank_identity_witness :
    getFormattedEmailOptions "   " [{ label := "a@x.com" }] = [{ label := "a@x.com" }] :=
  email_options_blank_identity [{ label := "a@x.com" }] "   " (by decide)

/-- Claim C3: deleting a batch of three items where the second deletion fails
proceeds in list order and aborts: the first item is deleted, the third is
never attempted, and exactly one error notification is raised. -/
theorem delete_batch_sequential_abort (deleteSucceeds : String → Bool)
    (i1 i2 i3 : String)
    (h1 : deleteSucceeds i1 = true) (h2 : deleteSucceeds i2 = false) :
    (deleteItems deleteSucceeds [i1, i2, i3]).deleted = [i1] ∧
    (deleteItems deleteSucceeds [i1, i2, i3]).attempted = [i1, i2] ∧
    (deleteItems deleteSucceeds [i1, i2, i3]).errorToasts = 1 := by
  refine ⟨?_, ?_, ?_⟩ <;> simp [deleteItems, asyncMapDelete, h1, h2]

/-- Witness for C3 at a concrete batch whose second deletion fails. -/
theorem delete_batch_sequential_abort_witness :
    (deleteItems (fun s => s == "a") ["a", "b", "c"]).deleted = ["a"] ∧
    (deleteItems (fun s => s == "a") ["a", "b", "c"]).attempted = ["a", "b"] ∧
    (deleteItems (fun s => s == "a") ["a", "b", "c"]).errorToasts = 1 :=
  delete_batch_sequential_abort (fun s => s == "a") "a" "b" "c"
    (by decide) (by decide)

/-- Claim C9: during plugin setup the listing tab is registered exactly once
iff the optional dashboard dependency is present; when absent, nothing is
registered, no error is raised and no log is emitted; registrations are never
reversed (the old registry is a prefix of the new one). -/
theorem plugin_setup_registration (dashboard : Option Unit)
    (registry : List TabConfig) :
    ((visualizationListingPluginSetup dashboard registry).registry.count
        visualizationsTabConfig =
      registry.count visualizationsTabConfig +
        (if dashboard.isSome then 1 else 0)) ∧
    (dashboard.isSome = true →
      (visualizationListingPluginSetup dashboard registry).registry =
        registry ++ [visualizationsTabConfig]) ∧
    (dashboard = none →
      (visualizationListingPluginSetup dashboard registry).registry = registry) ∧
    (visualizationListingPluginSetup dashboard registry).errors = [] ∧
    (visualizationListingPluginSetup dashboard registry).logs = [] ∧
    List.IsPrefix registry
      (visualizationListingPluginSetup dashboard registry).registry := by
  cases dashboard with
  | none =>
    refine ⟨by simp [visualizationListingPluginSetup], by simp, fun _ => rfl,
      rfl, rfl, ⟨[], by simp [visualizationListingPluginSetup]⟩⟩
  | some u =>
    refine ⟨?_, fun _ => rfl, by simp, rfl, rfl,
      ⟨[visualizationsTabConfig], rfl⟩⟩
    simp [visualizationListingPluginSetup, List.count_append]

/-- Witness for C9: with the dependency present and an empty registry, setup
registers exactly the visualizations tab. -/
theorem plugin_setup_registration_witness :
    (visualizationListingPluginSetup (some ()) []).registry =
      [visualizationsTabConfig] := by
  simpa using (plugin_setup_registration (some ()) []).2.1 rfl

/-- Helper: the duplicate-title warning string is never empty. -/
theorem duplicateTitleWarning_ne_empty (value : String) :
    duplicateTitleWarning value ≠ "" := by
  intro h
  have hlen := congrArg String.length h
  simp only [duplicateTitleWarning, String.length_append] at hlen
  have h8 : ("Saving \"" : String).length = 8 := rfl
  have h0 : ("" : String).length = 0 := rfl
  rw [h8, h0] at hlen
  omega

/-- Claim C7: the duplicate-title validator is a warning-level validator
(`type = "warning"`, so it never blocks submission); whenever the item being
edited is found in the cached results, a rejecting backend duplicate check
makes it return a non-empty localized warning string and a succeeding check
makes it return no message. -/
theorem duplicate_title_validator (visualizedUserContent : List VisUserContent)
    (checkRejects : DuplicateTitleCheckArgs → Bool) (value id : String)
    (content : VisUserContent) (hid : id ≠ "")
    (hfind : visualizedUserContent.find? (fun c => c.id == id) = some content) :
    visTitleValidatorType = "warning" ∧
    (checkRejects { id := id, title := value, lastSavedTitle := content.title } =
        true →
      visTitleValidatorFn visualizedUserContent checkRejects value id =
        some (duplicateTitleWarning value) ∧
      duplicateTitleWarning value ≠ "") ∧
    (checkRejects { id := id, title := value, lastSavedTitle := content.title } =
        false →
      visTitleValidatorFn visualizedUserContent checkRejects value id = none) := by
  refine ⟨rfl, fun hc => ⟨?_, duplicateTitleWarning_ne_empty value⟩,
    fun hc => ?_⟩ <;>
  simp [visTitleValidatorFn, hid, hfind, hc]

/-- Witness for C7: a rejecting check on a cached item yields the warning. -/
theorem duplicate_title_validator_witness :
    visTitleValidatorFn [sampleNormalVisItem] (fun _ => true) "Report A" "v2" =
      some (duplicateTitleWarning "Report A") :=
  ((duplicate_title_validator [sampleNormalVisItem] (fun _ => true) "Report A"
      "v2" sampleNormalVisItem (by decide) (by rfl)).2.1 rfl).1

/-- Claim C8: the content editor save callback is a silent no-op (no update
call, no error) when the id is not in the cached result set; when the id is
found, exactly one partial update of title, description and tags is issued
for that item. -/
theorem content_editor_save (visualizedUserContent : List VisUserContent)
    (args : SaveArgs) :
    (args.id ∉ visualizedUserContent.map (fun c => c.id) →
      onContentEditorSave visualizedUserContent args = []) ∧
    (∀ content,
      visualizedUserContent.find? (fun c => c.id == args.id) = some content →
      onContentEditorSave visualizedUserContent args =
        [{ id := content.attributes.id
           type := content.type
           title := args.title
           description := args.description.getD ""
           tags := args.tags }]) := by
  constructor
  · intro h
    have hnone :
        visualizedUserContent.find? (fun c => c.id == args.id) = none := by
      rw [List.find?_eq_none]
      intro c hc hbeq
      apply h
      have hceq : c.id = args.id := by simpa using hbeq
      exact hceq ▸ List.mem_map_of_mem (fun c => c.id) hc
    simp [onContentEditorSave, hnone]
  · intro content hfind
    simp [onContentEditorSave, hfind]

/-- Witness for C8: a stale id produces no update call; a cached id produces
exactly the one partial update. -/
theorem content_editor_save_witness :
    onContentEditorSave [sampleNormalVisItem]
        { id := "nope", title := "T", description := none, tags := [] } = [] ∧
    onContentEditorSave [sampleNormalVisItem]
        { id := "v2", title := "T", description := some "D", tags := ["t1"] } =
      [{ id := "v2", type := "lens", title := "T", description := "D"
         tags := ["t1"] }] :=
  ⟨(content_editor_save [sampleNormalVisItem]
      { id := "nope", title := "T", description := none, tags := [] }).1
      (by decide),
   (content_editor_save [sampleNormalVisItem]
      { id := "v2", title := "T", description := some "D", tags := ["t1"] }).2
      sampleNormalVisItem (by rfl)⟩

/-- Claim C5 is false as stated: an item that is not read-only but carries an
error also gets no click handler, although the claim promises a defined
handler for every item without the read-only flag. -/
theorem click_title_counterexample :
    sampleErroredVisItem.attributes.readOnly = false ∧
    getOnClickTitle sampleErroredVisItem = none :=
  ⟨rfl, rfl⟩

/-- Claim C5 amended: an item with the read-only flag set, or with a (truthy)
error, gets no click handler; an item with neither gets a defined handler
that invokes `editItem` on that item. -/
theorem click_title_amended (item : VisUserContent) :
    (item.attributes.readOnly = true ∨ jsTruthyStr item.error = true →
      getOnClickTitle item = none) ∧
    (item.attributes.readOnly = false → jsTruthyStr item.error = false →
      getOnClickTitle item = some (fun _ => ClickAction.runEditItem item)) := by
  constructor
  · intro h
    rcases h with h | h <;> simp [getOnClickTitle, h]
  · intro h1 h2
    simp [getOnClickTitle, h1, h2]

/-- Witness for C5 (amended) at a concrete errored item and a concrete
normal item. -/
theorem click_title_amended_witness :
    getOnClickTitle sampleErroredVisItem = none ∧
    getOnClickTitle sampleNormalVisItem =
      some (fun _ => ClickAction.runEditItem sampleNormalVisItem) :=
  ⟨(click_title_amended sampleErroredVisItem).1 (Or.inr rfl),
   (click_title_amended sampleNormalVisItem).2 rfl rfl⟩

/-- Claim C6 is false in full generality: when the raw text trims to the
empty string the previous options are returned unchanged, so duplicate
labels already present are not collapsed. -/
theorem email_options_counterexample :
    (getFormattedEmailOptions " "
        [{ label := "a@x.com" }, { label := "a@x.com" }]).map
      (fun o => o.label) = ["a@x.com", "a@x.com"] ∧
    ¬ ((getFormattedEmailOptions " "
        [{ label := "a@x.com" }, { label := "a@x.com" }]).map
      (fun o => o.label)).Nodup := by
  constructor
  · rfl
  · decide

/-- Helper: pouring a list into a JavaScript set by repeated `add` yields the
first-occurrence de-duplication of the elements not already in the set. -/
theorem foldl_jsSetAdd_eq (xs : List String) : ∀ s : List String,
    xs.foldl jsSetAdd s = s ++ dedupKeepFirst (xs.filter (fun a => a ∉ s)) := by
  induction xs with
  | nil => intro s; simp [dedupKeepFirst]
  | cons x xs ih =>
    intro s
    by_cases hx : x ∈ s
    · have hstep : jsSetAdd s x = s := by simp [jsSetAdd, hx]
      have hfilter : (x :: xs).filter (fun a => a ∉ s) =
          xs.filter (fun a => a ∉ s) := by
        simp [List.filter_cons, hx]
      rw [List.foldl_cons, hstep, hfilter, ih s]
    · have hstep : jsSetAdd s x = s ++ [x] := by simp [jsSetAdd, hx]
      have hfilter : (x :: xs).filter (fun a => a ∉ s) =
          x :: xs.filter (fun a => a ∉ s) := by
        simp [List.filter_cons, hx]
      have hff : xs.filter (fun a => a ∉ s ++ [x]) =
          (xs.filter (fun a => a ∉ s)).filter (fun a => a ≠ x) := by
        rw [List.filter_filter]
        apply List.filter_congr
        intro a _
        by_cases h1 : a ∈ s <;> by_cases h2 : a = x <;> simp [h1, h2]
      rw [List.foldl_cons, hstep, ih (s ++ [x]), hfilter, dedupKeepFirst, hff]
      simp

/-- Helper: starting from the empty set, the fold is exactly
first-occurrence de-duplication. -/
theorem foldl_jsSetAdd_nil_eq (xs : List String) :
    xs.foldl jsSetAdd [] = dedupKeepFirst xs := by
  simpa using foldl_jsSetAdd_eq xs []

/-- Helper: the trim-and-skip-blank fold over the raw entries equals the
plain set fold over the trimmed non-blank entries. -/
theorem foldl_trim_step (entries : List String) : ∀ s : List String,
    entries.foldl
        (fun s email =>
          let trimmedEmail := jsTrim email
          if trimmedEmail ≠ "" then jsSetAdd s trimmedEmail else s) s =
      ((entries.map jsTrim).filter (fun t => t ≠ "")).foldl jsSetAdd s := by
  induction entries with
  | nil => intro s; rfl
  | cons e es ih =>
    intro s
    by_cases h : jsTrim e = ""
    · have hstep : (let trimmedEmail := jsTrim e
          if trimmedEmail ≠ "" then jsSetAdd s trimmedEmail else s) = s := by
        simp [h]
      rw [List.foldl_cons, hstep, List.map_cons, List.filter_cons,
        if_neg (by simp [h])]
      exact ih s
    · have hstep : (let trimmedEmail := jsTrim e
          if trimmedEmail ≠ "" then jsSetAdd s trimmedEmail else s) =
          jsSetAdd s (jsTrim e) := by
        simp [h]
      rw [List.foldl_cons, hstep, List.map_cons, List.filter_cons,
        if_pos (by simp [h]), List.foldl_cons]
      exact ih (jsSetAdd s (jsTrim e))

/-- Helper: membership is preserved from the de-duplicated list back to the
original list. -/
theorem mem_of_mem_dedupKeepFirst : ∀ (l : List String) (a : String),
    a ∈ dedupKeepFirst l → a ∈ l
  | [], _, h => by simp [dedupKeepFirst] at h
  | x :: xs, a, h => by
    rw [dedupKeepFirst] at h
    rcases List.mem_cons.mp h with rfl | h
    · exact List.mem_cons_self _ _
    · exact List.mem_cons_of_mem _
        (List.mem_of_mem_filter
          (mem_of_mem_dedupKeepFirst (xs.filter (fun a => a ≠ x)) a h))
termination_by l => l.length
decreasing_by
  simp only [List.length_cons]
  exact Nat.lt_succ_of_le (List.length_filter_le _ _)

/-- Helper: first-occurrence de-duplication yields a duplicate-free list. -/
theorem dedupKeepFirst_nodup : ∀ l : List String, (dedupKeepFirst l).Nodup
  | [] => by simp [dedupKeepFirst]
  | x :: xs => by
    rw [dedupKeepFirst]
    refine List.nodup_cons.mpr
      ⟨?_, dedupKeepFirst_nodup (xs.filter (fun a => a ≠ x))⟩
    intro hmem
    have hx := mem_of_mem_dedupKeepFirst _ x hmem
    have hne := List.of_mem_filter hx
    simp at hne
termination_by l => l.length
decreasing_by
  simp only [List.length_cons]
  exact Nat.lt_succ_of_le (List.length_filter_le _ _)

/-- Claim C6 amended: the concrete example holds, and for every
previous-options list and every raw text that does not trim to the empty
string, the labels of the result are exactly the first-occurrence
de-duplication (order-preserving, case-sensitive string equality) of the
previous labels followed by the trimmed non-blank comma-separated entries;
in particular the resulting labels contain no duplicates. -/
theorem email_options_amended :
    ((getFormattedEmailOptions "a@x.com, b@x.com" [{ label := "a@x.com" }]).map
        (fun o => o.label) = ["a@x.com", "b@x.com"]) ∧
    ∀ (previousOptions : List EmailOption) (searchValue : String),
      jsTrim searchValue ≠ "" →
      ((getFormattedEmailOptions searchValue previousOptions).map
          (fun o => o.label) =
        dedupKeepFirst (previousOptions.map (fun o => o.label) ++
          ((jsSplitOnComma searchValue).map jsTrim).filter
            (fun t => t ≠ "")) ∧
      ((getFormattedEmailOptions searchValue previousOptions).map
          (fun o => o.label)).Nodup) := by
  constructor
  · rfl
  · intro prev sv h
    have hmain : (getFormattedEmailOptions sv prev).map (fun o => o.label) =
        dedupKeepFirst (prev.map (fun o => o.label) ++
          ((jsSplitOnComma sv).map jsTrim).filter (fun t => t ≠ "")) := by
      unfold getFormattedEmailOptions
      rw [if_neg h]
      simp only [foldl_trim_step, List.map_map]
      rw [← List.foldl_append, foldl_jsSetAdd_nil_eq]
      have hid2 : ((fun o : EmailOption => o.label) ∘ fun email : String =>
          ({ label := email } : EmailOption)) = fun x : String => x := rfl
      rw [hid2, List.map_id']
    exact ⟨hmain, hmain ▸ dedupKeepFirst_nodup _⟩

/-- Witness for C6 (amended) at the claim's own concrete input. -/
theorem email_options_amended_witness :
    (getFormattedEmailOptions "a@x.com, b@x.com" [{ label := "a@x.com" }]).map
        (fun o => o.label) =
      dedupKeepFirst (["a@x.com"] ++
        ((jsSplitOnComma "a@x.com, b@x.com").map jsTrim).filter
          (fun t => t ≠ "")) :=
  ((email_options_amended).2 [{ label := "a@x.com" }] "a@x.com, b@x.com"
    (by decide)).1
